import Mathlib

/-!
Shallow embedding of the sports-store Flask application (src/app.py) and
proofs about its cart, catalog, admin and authentication logic.

Conventions of the embedding:
* Python dicts that the app stores in the session (the cart) are modelled as
  association lists in insertion order, with first-match lookup, in-place
  update of an existing key and append of a new key — Python dict semantics.
* Numeric values are modelled as exact rationals; the rounding of decimal
  literals to IEEE doubles is not modelled (it is irrelevant at every input
  the properties touch).
* Code paths that raise an uncaught Python exception are modelled with
  Except: the error value names the exception the interpreter would raise.
* SQLite stores a text value in a REAL-affinity column as a real number when
  the text is a well-formed numeric literal and as text otherwise; the
  price column is therefore modelled as a sum of rational and string.
-/

namespace SportsStore

/-- Decidable equality for Except values, used to evaluate the embedded
handlers that model uncaught Python exceptions. -/
instance {ε : Type u} {α : Type v} [DecidableEq ε] [DecidableEq α] :
    DecidableEq (Except ε α) := fun
  | .error e1, .error e2 =>
    match decEq e1 e2 with
    | isTrue h => isTrue (by rw [h])
    | isFalse h => isFalse (by intro hh; cases hh; exact h rfl)
  | .error _, .ok _ => isFalse (by intro h; cases h)
  | .ok _, .error _ => isFalse (by intro h; cases h)
  | .ok a1, .ok a2 =>
    match decEq a1 a2 with
    | isTrue h => isTrue (by rw [h])
    | isFalse h => isFalse (by intro hh; cases hh; exact h rfl)

/-! ## Python dict as ordered association list -/

/-- Lookup with default, Python `d.get(k, default)`: first entry with the key. -/
def dictGet (d : List (String × Nat)) (k : String) (default : Nat) : Nat :=
  match d with
  | [] => default
  | p :: ps => if p.1 == k then p.2 else dictGet ps k default

/-- Assignment `d[k] = v`: overwrite the key's entry in place when the key is
present (the app's dicts are duplicate-free), else append the new entry. -/
def dictSet (d : List (String × Nat)) (k : String) (v : Nat) : List (String × Nat) :=
  match d with
  | [] => [(k, v)]
  | p :: ps => if p.1 == k then (k, v) :: ps else p :: dictSet ps k v

/-- Deletion `del d[k]` (for a dict; key assumed present or absent, removal of all
entries with the key — identical on the duplicate-free dicts the app builds). -/
def dictDel (d : List (String × Nat)) (k : String) : List (String × Nat) :=
  d.filter (fun p => !(p.1 == k))

/-- Python str.strip(): drop whitespace from both ends. -/
def pyStrip (s : String) : String :=
  String.mk (((s.data.dropWhile Char.isWhitespace).reverse.dropWhile Char.isWhitespace).reverse)

/-! ## Numeric string parsing

Python `float()` accepts an optionally signed decimal literal with optional
fraction and exponent, single underscores between digits, and the special
spellings inf, infinity and nan (case-insensitive), surrounded by optional
whitespace.  SQLite numeric affinity accepts the same grammar minus
underscores and the special spellings. -/

/-- Kernel-computable rational operations.  Batteries marks Rat.add and
Rat.mul irreducible, which would block evaluation of the embedded handlers
inside proofs, so the embedding builds rationals with mkRat; the lemmas
ratAdd_eq and ratMul_eq below identify them with the ordinary operations. -/
def intRat (n : Int) : Rat := mkRat n 1

/-- Product of two rationals, built with mkRat. -/
def ratMul (a b : Rat) : Rat := mkRat (a.num * b.num) (a.den * b.den)

/-- Sum of two rationals, built with mkRat. -/
def ratAdd (a b : Rat) : Rat :=
  mkRat (a.num * Int.ofNat b.den + b.num * Int.ofNat a.den) (a.den * b.den)

/-- Power of ten. -/
def pow10 (k : Nat) : Nat := Nat.pow 10 k

/-- Consume a leading digit run, with fuel at least the list length so the
recursion is structural; when `und` is true a single underscore may stand
between two digits (Python numeric-literal underscores). -/
def takeDigitsF (und : Bool) : Nat → List Char → List Char × List Char
  | 0, l => ([], l)
  | _ + 1, [] => ([], [])
  | fuel + 1, c :: cs =>
    if c.isDigit then
      match cs with
      | '_' :: c2 :: cs2 =>
        if und && c2.isDigit then
          let r := takeDigitsF und fuel (c2 :: cs2)
          (c :: r.1, r.2)
        else
          let r := takeDigitsF und fuel cs
          (c :: r.1, r.2)
      | _ =>
        let r := takeDigitsF und fuel cs
        (c :: r.1, r.2)
    else ([], c :: cs)

/-- Consume a leading digit run from a list. -/
def takeDigitsAux (und : Bool) (l : List Char) : List Char × List Char :=
  takeDigitsF und l.length l

/-- Numeric value of a digit run. -/
def digitsVal (ds : List Char) : Nat :=
  ds.foldl (fun n c => n * 10 + (c.toNat - 48)) 0

/-- Parse the mantissa part: digits, optionally a point with further digits;
at least one digit overall.  Returns the value and the unconsumed rest. -/
def parseMantissa (und : Bool) (cs : List Char) : Option (Rat × List Char) :=
  let r := takeDigitsAux und cs
  match r.2 with
  | '.' :: r2 =>
    let f := takeDigitsAux und r2
    if r.1.isEmpty && f.1.isEmpty then none
    else
      some (ratAdd (intRat (Int.ofNat (digitsVal r.1)))
              (mkRat (Int.ofNat (digitsVal f.1)) (pow10 f.1.length)), f.2)
  | _ => if r.1.isEmpty then none else some (intRat (Int.ofNat (digitsVal r.1)), r.2)

/-- Parse an optional exponent part `e` / `E`, optional sign, digits. -/
def parseExpPart (und : Bool) (cs : List Char) : Option (Int × List Char) :=
  match cs with
  | [] => some (0, [])
  | c :: r1 =>
    if c == 'e' || c == 'E' then
      let sr : Int × List Char :=
        match r1 with
        | '+' :: t => (1, t)
        | '-' :: t => (-1, t)
        | t => (1, t)
      let d := takeDigitsAux und sr.2
      if d.1.isEmpty then none else some (sr.1 * Int.ofNat (digitsVal d.1), d.2)
    else some (0, cs)

/-- Scale a mantissa by a power of ten. -/
def scalePow10 (m : Rat) (e : Int) : Rat :=
  if 0 ≤ e then ratMul m (intRat (Int.ofNat (pow10 e.toNat)))
  else mkRat m.num (m.den * pow10 (-e).toNat)

/-- Result of Python `float()` on a string that parses. -/
inductive PyFloat where
  | finite (q : Rat)
  | infinite (neg : Bool)
  | nan
deriving DecidableEq

/-- Python comparison `x <= 0` on a float (false for nan, true for -inf). -/
def PyFloat.le0 : PyFloat → Bool
  | .finite q => decide (q ≤ 0)
  | .infinite neg => neg
  | .nan => false

/-- Python `float(s)`: none models the ValueError raised on a malformed string. -/
def pyFloat (s : String) : Option PyFloat :=
  let cs0 := (pyStrip s).data
  let sc : Bool × List Char :=
    match cs0 with
    | '+' :: r => (false, r)
    | '-' :: r => (true, r)
    | r => (false, r)
  let low := sc.2.map Char.toLower
  if low == ("inf").data || low == ("infinity").data then some (.infinite sc.1)
  else if low == ("nan").data then some .nan
  else
    match parseMantissa true sc.2 with
    | none => none
    | some (m, r1) =>
      match parseExpPart true r1 with
      | none => none
      | some (e, r2) =>
        if r2.isEmpty then
          let v := scalePow10 m e
          some (.finite (if sc.1 then Rat.neg v else v))
        else none

/-- SQLite well-formed numeric literal: signed decimal with optional fraction
and exponent, no underscores, no inf/nan. -/
def sqliteNum (s : String) : Option Rat :=
  let sc : Bool × List Char :=
    match s.data with
    | '+' :: r => (false, r)
    | '-' :: r => (true, r)
    | r => (false, r)
  match parseMantissa false sc.2 with
  | none => none
  | some (m, r1) =>
    match parseExpPart false r1 with
    | none => none
    | some (e, r2) =>
      if r2.isEmpty then
        let v := scalePow10 m e
        some (if sc.1 then Rat.neg v else v)
      else none

/-- Value held by the REAL-affinity price column. -/
inductive SqlVal where
  | real (q : Rat)
  | text (s : String)
deriving DecidableEq

/-- REAL-affinity conversion applied by SQLite when a text value is stored in
the price column. -/
def realAffinity (s : String) : SqlVal :=
  match sqliteNum s with
  | some q => .real q
  | none => .text s

/-! ## Data model: products table, session, requests, responses -/

/-- Row of the products table created by app.py's init_db (id is the
AUTOINCREMENT primary key; name carries no UNIQUE constraint). -/
structure ProductRow where
  id : Nat
  name : String
  price : SqlVal
  category : String
  image : String
deriving DecidableEq

/-- Products table plus the next AUTOINCREMENT id. -/
structure DB where
  products : List ProductRow
  nextId : Nat
deriving DecidableEq

/-- Row of the users table. -/
structure UserRow where
  id : Nat
  username : String
  passwordHash : String
deriving DecidableEq

/-- The session value under the cart key: absent, the legacy list of product
names, or the name-to-quantity dict — the three shapes the app ever stores. -/
inductive CartState where
  | absent
  | legacy (items : List String)
  | map (entries : List (String × Nat))
deriving DecidableEq

/-- Flask session state the app reads and writes. -/
structure Session where
  adminLoggedIn : Bool
  csrfToken : Option String
  cart : CartState
deriving DecidableEq

/-- Posted form data: field name to value, first occurrence wins. -/
abbrev Form := List (String × String)

/-- Werkzeug `request.form.get(key)`. -/
def formGet (form : Form) (key : String) : Option String :=
  (form.find? (fun p => p.1 == key)).map (fun p => p.2)

/-- Werkzeug `request.form.get(key, "")`. -/
def formGetD (form : Form) (key : String) : String :=
  (formGet form key).getD ""

/-- Responses the handlers produce: a redirect to a named endpoint
(url_for target) or a rendered template. -/
inductive Response where
  | redirect (endpoint : String)
  | render (template : String)
deriving DecidableEq

/-- Outcome of an admin product handler: resulting table, flashed messages
(message, category) and the response. -/
structure AdminResult where
  db : DB
  flashes : List (String × String)
  response : Response
deriving DecidableEq

/-! ## CSRF and validation helpers (app.py lines 76-117) -/

/-- App function verify_csrf: both tokens present, truthy and equal. -/
def verify_csrf (sess : Session) (form : Form) : Bool :=
  match sess.csrfToken, formGet form ("csrf_token") with
  | some st, some ft => !(st == "") && !(ft == "") && st == ft
  | _, _ => false

/-- Accepted image extension test: `image.lower().endswith((...))`. -/
def imageExtOk (image : String) : Bool :=
  let l := image.data.map Char.toLower
  let ends := fun (pat : List Char) =>
    decide (pat.length ≤ l.length) && (l.drop (l.length - pat.length) == pat)
  ends (".png").data || ends (".jpg").data || ends (".jpeg").data || ends (".webp").data

/-- App function validate_product_form: returns the error message, none when
the form passes. -/
def validate_product_form (name price category image : String) : Option String :=
  if name == "" || price == "" || category == "" || image == "" then
    some "All fields are required."
  else
    match pyFloat price with
    | none => some "Price must be a number."
    | some v =>
      if v.le0 then some "Price must be greater than zero."
      else if imageExtOk image then none
      else some "Invalid image format."

/-! ## Admin product handlers (app.py lines 230-324) -/

/-- Redirect produced by the admin_required decorator for a session without
the admin flag: no flash, no table change. -/
def authRedirect (db : DB) : AdminResult :=
  { db := db, flashes := [], response := .redirect "admin_login" }

/-- Rejection produced by a failed verify_csrf check. -/
def csrfReject (db : DB) : AdminResult :=
  { db := db, flashes := [("Invalid CSRF token", "danger")], response := .redirect "admin" }

/-- Handler for POST /admin/add: admin_required, then CSRF, then validation,
then INSERT. -/
def admin_add (sess : Session) (form : Form) (db : DB) : AdminResult :=
  if !sess.adminLoggedIn then authRedirect db
  else if !(verify_csrf sess form) then csrfReject db
  else
    let name := pyStrip (formGetD form "name")
    let price := pyStrip (formGetD form "price")
    let category := pyStrip (formGetD form "category")
    let image := pyStrip (formGetD form "image")
    match validate_product_form name price category image with
    | some err =>
      { db := db, flashes := [(err, "error")], response := .redirect "admin" }
    | none =>
      let row : ProductRow :=
        { id := db.nextId, name := name, price := realAffinity price,
          category := category, image := image }
      { db := { products := db.products ++ [row], nextId := db.nextId + 1 },
        flashes := [("Product added successfully!", "success")],
        response := .redirect "admin" }

/-- Handler for GET /admin/delete/id: admin_required, then unconditional DELETE. -/
def admin_delete (product_id : Nat) (sess : Session) (db : DB) : AdminResult :=
  if !sess.adminLoggedIn then authRedirect db
  else
    { db := { products := db.products.filter (fun r => !(r.id == product_id)),
              nextId := db.nextId },
      flashes := [("Product deleted", "warning")],
      response := .redirect "admin" }

/-- Handler for POST /admin/update/id.  The route carries no admin_required
decorator: only CSRF is checked.  A non-empty image is validated with the
full form; an empty image skips validation and is re-read from the stored
row — when no row has the id, `cursor.fetchone()["image"]` subscripts None
and raises, modelled as the error case. -/
def admin_update (product_id : Nat) (sess : Session) (form : Form) (db : DB) :
    Except String AdminResult :=
  if !(verify_csrf sess form) then .ok (csrfReject db)
  else
    let name := pyStrip (formGetD form "name")
    let price := pyStrip (formGetD form "price")
    let category := pyStrip (formGetD form "category")
    let image := pyStrip (formGetD form "image")
    let validation : Option String :=
      if !(image == "") then validate_product_form name price category image else none
    match validation with
    | some err =>
      .ok { db := db, flashes := [(err, "error")], response := .redirect "admin" }
    | none =>
      let imageResolved : Except String String :=
        if image == "" then
          match db.products.find? (fun r => r.id == product_id) with
          | some r => .ok r.image
          | none => .error "TypeError: NoneType object is not subscriptable"
        else .ok image
      match imageResolved with
      | .error e => .error e
      | .ok img =>
        .ok { db := { products := db.products.map (fun r =>
                        if r.id == product_id then
                          { id := r.id, name := name, price := realAffinity price,
                            category := category, image := img }
                        else r),
                      nextId := db.nextId },
              flashes := [("Product updated successfully!", "info")],
              response := .redirect "admin" }

/-! ## Cart handlers (app.py lines 160-217) -/

/-- Migration of the legacy list cart to the quantity dict, as written twice
in app.py: fold the list, incrementing each name's count. -/
def migrateCartList (l : List String) : List (String × Nat) :=
  l.foldl (fun d item => dictSet d item (dictGet d item 0 + 1)) []

/-- Handler for GET /add_to_cart/name: migrate a legacy list, default a
missing cart to empty, increment the entry, store back. -/
def add_to_cart (product_name : String) (sess : Session) : Session × Response :=
  let cart : List (String × Nat) :=
    match sess.cart with
    | .legacy l => migrateCartList l
    | .absent => []
    | .map d => d
  let cart2 := dictSet cart product_name (dictGet cart product_name 0 + 1)
  ({ sess with cart := .map cart2 }, .redirect "product_page")

/-- Handler for GET /remove_from_cart/name.  No legacy migration here: when
the session still holds the legacy list and the name occurs in it,
`del cart[product_name]` indexes a list with a string and raises TypeError. -/
def remove_from_cart (product_name : String) (sess : Session) :
    Except String (Session × Response) :=
  match sess.cart with
  | .absent => .ok ({ sess with cart := .map [] }, .redirect "cart")
  | .map d => .ok ({ sess with cart := .map (dictDel d product_name) }, .redirect "cart")
  | .legacy l =>
    if product_name ∈ l then
      .error "TypeError: list indices must be integers or slices, not str"
    else .ok ({ sess with cart := .legacy l }, .redirect "cart")

/-- Line item rendered on the cart page: the matched product row, the
quantity and the computed subtotal. -/
structure CartLine where
  row : ProductRow
  qty : Nat
  subtotal : Rat
deriving DecidableEq

/-- Inner loop of the cart view for one (name, qty) entry: every product row
whose name matches contributes a line with subtotal qty * price; a text
price would make Python multiply int by str and then fail the running-total
addition with TypeError. -/
def cartLinesFor (products : List ProductRow) (name : String) (qty : Nat) :
    Except String (List CartLine × Rat) :=
  match products with
  | [] => .ok ([], 0)
  | p :: ps =>
    if p.name == name then
      match p.price with
      | .real q =>
        match cartLinesFor ps name qty with
        | .error e => .error e
        | .ok (ls, t) =>
          .ok ({ row := p, qty := qty, subtotal := ratMul (intRat (Int.ofNat qty)) q } :: ls,
               ratAdd (ratMul (intRat (Int.ofNat qty)) q) t)
      | .text _ => .error "TypeError: unsupported operand type for total"
    else cartLinesFor ps name qty

/-- Outer loop of the cart view over the dict entries in insertion order. -/
def cartView (products : List ProductRow) (entries : List (String × Nat)) :
    Except String (List CartLine × Rat) :=
  match entries with
  | [] => .ok ([], 0)
  | (name, qty) :: rest =>
    match cartLinesFor products name qty with
    | .error e => .error e
    | .ok (ls1, t1) =>
      match cartView products rest with
      | .error e => .error e
      | .ok (ls2, t2) => .ok (ls1 ++ ls2, ratAdd t1 t2)

/-- Handler for GET /cart: migrate a legacy list (writing it back), default a
missing cart to empty, then render the joined line items and total. -/
def cart_page (products : List ProductRow) (sess : Session) :
    Except String (Session × List CartLine × Rat) :=
  match sess.cart with
  | .legacy l =>
    let d := migrateCartList l
    match cartView products d with
    | .error e => .error e
    | .ok (ls, t) => .ok ({ sess with cart := .map d }, ls, t)
  | .absent =>
    match cartView products [] with
    | .error e => .error e
    | .ok (ls, t) => .ok (sess, ls, t)
  | .map d =>
    match cartView products d with
    | .error e => .error e
    | .ok (ls, t) => .ok (sess, ls, t)

/-! ## Catalog query (app.py lines 127-150) -/

/-- SQL LIKE matching as SQLite evaluates it: percent matches any character
sequence (some suffix of the text continues the match), underscore matches
exactly one character, plain characters compare after ASCII lowercasing. -/
def likeMatch : List Char → List Char → Bool
  | [], t => t.isEmpty
  | '%' :: ps, t => t.tails.any (fun t2 => likeMatch ps t2)
  | '_' :: ps, t =>
    match t with
    | [] => false
    | _ :: ts => likeMatch ps ts
  | a :: ps, t =>
    match t with
    | [] => false
    | c :: ts => (a.toLower == c.toLower) && likeMatch ps ts

/-- Handler for GET /products: the WHERE clause grows a name LIKE percent
query percent conjunct when the trimmed query is non-empty and a category
equality conjunct when the trimmed category is non-empty. -/
def product_page (products : List ProductRow) (qRaw cRaw : String) : List ProductRow :=
  let query := pyStrip qRaw
  let category := pyStrip cRaw
  let r1 :=
    if !(query == "") then
      products.filter (fun p => likeMatch ('%' :: (query.data ++ ['%'])) p.name.data)
    else products
  if !(category == "") then r1.filter (fun p => p.category == category) else r1

/-! ## Login handler (app.py lines 330-356) -/

/-- Outcome of the login POST handler. -/
structure LoginResult where
  session : Session
  flashes : List (String × String)
  response : Response
deriving DecidableEq

/-- Handler for POST /admin/login.  Password hashing lives in werkzeug, so
the hash check is a parameter: verify password hash decides whether the
supplied password matches the stored hash. -/
def admin_login_post (verify : String → String → Bool) (users : List UserRow)
    (sess : Session) (form : Form) : LoginResult :=
  let username := pyStrip (formGetD form "username")
  let password := pyStrip (formGetD form "password")
  if username == "" || password == "" then
    { session := sess, flashes := [("Username and password are required", "danger")],
      response := .redirect "admin_login" }
  else
    match users.find? (fun u => u.username == username) with
    | none =>
      { session := sess, flashes := [("Invalid username or password", "danger")],
        response := .redirect "admin_login" }
    | some u =>
      if verify password u.passwordHash then
        { session := { sess with adminLoggedIn := true }, flashes := [],
          response := .redirect "admin" }
      else
        { session := sess, flashes := [("Invalid username or password", "danger")],
          response := .redirect "admin_login" }

/-! ## Statement-side vocabulary

Functions used to state the properties: the rows a cart entry matches, the
line items and totals they should produce, case-insensitive substring
containment as the spec words the catalog search, and the login form. -/

/-- Whether every price in the catalog is a real number (no text value ever
slipped into the REAL-affinity column). -/
def pricesReal (products : List ProductRow) : Bool :=
  products.all (fun p => match p.price with | .real _ => true | .text _ => false)

/-- Rational carried by a price known to be real. -/
def ratOf : SqlVal → Rat
  | .real q => q
  | .text _ => 0

/-- Product rows whose name equals a cart entry's name. -/
def matchingRows (products : List ProductRow) (name : String) : List ProductRow :=
  products.filter (fun p => p.name == name)

/-- Line item a matching row should produce for a given quantity. -/
def lineOf (qty : Nat) (p : ProductRow) : CartLine :=
  { row := p, qty := qty, subtotal := (qty : Rat) * ratOf p.price }

/-- Line items one cart entry should produce: one per matching row. -/
def linesFor (products : List ProductRow) (name : String) (qty : Nat) : List CartLine :=
  (matchingRows products name).map (lineOf qty)

/-- Sum of the subtotals of a list of line items. -/
def subSum (ls : List CartLine) : Rat :=
  (ls.map (fun l => l.subtotal)).sum

/-- Line items the whole cart should produce, in entry order. -/
def viewLines (products : List ProductRow) : List (String × Nat) → List CartLine
  | [] => []
  | (name, qty) :: rest => linesFor products name qty ++ viewLines products rest

/-- Case-insensitive (ASCII) character-by-character leading match. -/
def leadEqCI : List Char → List Char → Bool
  | [], _ => true
  | _ :: _, [] => false
  | a :: ps, c :: ts => (a.toLower == c.toLower) && leadEqCI ps ts

/-- Case-insensitive substring containment: the spec's reading of the
catalog's free-text filter. -/
def subCI (q : List Char) : List Char → Bool
  | [] => leadEqCI q []
  | c :: ts => leadEqCI q (c :: ts) || subCI q ts

/-- Query strings free of the LIKE wildcard characters. -/
def noWild (q : List Char) : Bool :=
  q.all (fun c => !(c == '%') && !(c == '_'))

/-- Catalog filter as the spec words it: query empty or name contains the
query as a case-insensitive substring, and category empty or exactly equal. -/
def specFilter (products : List ProductRow) (qRaw cRaw : String) : List ProductRow :=
  let query := pyStrip qRaw
  let category := pyStrip cRaw
  products.filter (fun p =>
    (query == "" || subCI query.data p.name.data) && (category == "" || p.category == category))

/-- Form posted to the login handler. -/
def mkLoginForm (u p : String) : Form :=
  [("username", u), ("password", p)]

/-! ## Helper lemmas -/

/-- The mkRat embedding of an integer is the cast. -/
theorem intRat_eq (n : Int) : intRat n = (n : Rat) := by
  simp [intRat]

/-- The mkRat product is the rational product. -/
theorem ratMul_eq (a b : Rat) : ratMul a b = a * b := by
  rw [ratMul, Rat.mkRat_eq_divInt, Rat.divInt_eq_div]
  conv_rhs => rw [← Rat.num_div_den a, ← Rat.num_div_den b]
  rw [div_mul_div_comm]
  push_cast
  ring

/-- The mkRat sum is the rational sum. -/
theorem ratAdd_eq (a b : Rat) : ratAdd a b = a + b := by
  have ha : ((a.den : Rat)) ≠ 0 := by
    exact_mod_cast a.den_nz
  have hb : ((b.den : Rat)) ≠ 0 := by
    exact_mod_cast b.den_nz
  rw [ratAdd, Rat.mkRat_eq_divInt, Rat.divInt_eq_div]
  conv_rhs => rw [← Rat.num_div_den a, ← Rat.num_div_den b, div_add_div _ _ ha hb]
  push_cast [Int.ofNat_eq_natCast]
  ring

/-- Reading a dict after writing one key. -/
theorem dictGet_dictSet (d : List (String × Nat)) (k k2 : String) (v d0 : Nat) :
    dictGet (dictSet d k v) k2 d0 = if k == k2 then v else dictGet d k2 d0 := by
  induction d with
  | nil => simp [dictGet, dictSet]
  | cons p ps ih =>
    by_cases h1 : p.1 = k
    · by_cases h2 : k = k2 <;> simp [dictGet, dictSet, h1, h2]
    · by_cases h2 : k = k2
      · subst h2
        simp [dictGet, dictSet, h1, ih]
      · by_cases h3 : p.1 = k2 <;>
          simp [dictGet, dictSet, h1, h2, h3, ih, Ne.symm h2]

/-- Value accumulated by the legacy-cart migration fold: the starting count
plus the number of occurrences in the remaining list. -/
theorem dictGet_migrate_fold (l : List String) (d : List (String × Nat)) (name : String) :
    dictGet (l.foldl (fun d item => dictSet d item (dictGet d item 0 + 1)) d) name 0
      = dictGet d name 0 + l.count name := by
  induction l generalizing d with
  | nil => simp [List.count_nil]
  | cons a l ih =>
    rw [List.foldl_cons, ih, dictGet_dictSet]
    by_cases h : a = name <;> simp [List.count_cons, h, beq_iff_eq]
    omega

/-- Inner cart loop on an all-real catalog: one line item per matching row,
running total the sum of their subtotals. -/
theorem cartLinesFor_eq (products : List ProductRow) (name : String) (qty : Nat)
    (h : pricesReal products = true) :
    cartLinesFor products name qty
      = .ok (linesFor products name qty, subSum (linesFor products name qty)) := by
  induction products with
  | nil => simp [cartLinesFor, linesFor, matchingRows, subSum]
  | cons p ps ih =>
    have hp : (match p.price with | .real _ => true | .text _ => false) = true := by
      have := List.all_eq_true.mp h p (List.mem_cons_self p ps)
      exact this
    have hps : pricesReal ps = true := by
      refine List.all_eq_true.mpr ?_
      intro x hx
      exact List.all_eq_true.mp h x (List.mem_cons_of_mem p hx)
    obtain ⟨q, hq⟩ : ∃ q, p.price = .real q := by
      cases hpr : p.price with
      | real q => exact ⟨q, rfl⟩
      | text s => rw [hpr] at hp; simp at hp
    by_cases hname : p.name = name
    · simp [cartLinesFor, hname, hq, ih hps, linesFor, matchingRows, subSum, lineOf, ratOf,
        ratMul_eq, ratAdd_eq, intRat_eq, Int.cast_natCast]
    · have hb : (p.name == name) = false := by simp [hname]
      simp [cartLinesFor, hb, ih hps, linesFor, matchingRows, subSum]

/-- Sum of subtotals distributes over appended line lists. -/
theorem subSum_append (l1 l2 : List CartLine) :
    subSum (l1 ++ l2) = subSum l1 + subSum l2 := by
  simp [subSum]

/-- Whole cart view on an all-real catalog. -/
theorem cartView_eq (products : List ProductRow) (entries : List (String × Nat))
    (h : pricesReal products = true) :
    cartView products entries
      = .ok (viewLines products entries, subSum (viewLines products entries)) := by
  induction entries with
  | nil => simp [cartView, viewLines, subSum]
  | cons e rest ih =>
    obtain ⟨name, qty⟩ := e
    rw [cartView, cartLinesFor_eq products name qty h, ih]
    simp [viewLines, subSum_append, ratAdd_eq]

/-- Cart view over an empty catalog is empty with total zero, whatever the
entries. -/
theorem cartView_nil (entries : List (String × Nat)) :
    cartView [] entries = .ok ([], 0) := by
  induction entries with
  | nil => rfl
  | cons e rest ih =>
    obtain ⟨name, qty⟩ := e
    rw [cartView, ih]
    simp [cartLinesFor, ratAdd_eq]

/-- A filter returning exactly one row pins down the first match. -/
theorem find?_of_filter_singleton (l : List ProductRow) (p : ProductRow → Bool)
    (r : ProductRow) (h : l.filter p = [r]) : l.find? p = some r := by
  induction l with
  | nil => simp at h
  | cons a l ih =>
    by_cases ha : p a = true
    · rw [List.filter_cons_of_pos ha] at h
      obtain ⟨h1, h2⟩ := List.cons_eq_cons.mp h
      rw [List.find?_cons_of_pos _ ha, h1]
    · rw [List.filter_cons_of_neg (by simpa using ha)] at h
      rw [List.find?_cons_of_neg _ (by simpa using ha)]
      exact ih h

/-- Some tail of any list is empty. -/
theorem tails_any_isEmpty (t : List Char) : t.tails.any (fun x => x.isEmpty) = true := by
  induction t with
  | nil => rfl
  | cons c ts ih => simp [List.tails_cons, List.any_cons, ih]

/-- A lone percent matches every text. -/
theorem likeMatch_pct (t : List Char) : likeMatch ['%'] t = true := by
  have e : likeMatch ['%'] t = t.tails.any (fun t2 => likeMatch [] t2) := by
    rw [likeMatch]
  rw [e, show (fun t2 : List Char => likeMatch [] t2) = (fun x : List Char => x.isEmpty)
    from funext (fun t2 => rfl)]
  exact tails_any_isEmpty t

/-- A wildcard-free pattern followed by a percent matches exactly the texts
it leads case-insensitively. -/
theorem likeMatch_lit_pct (q : List Char) (hw : noWild q = true) :
    ∀ t, likeMatch (q ++ ['%']) t = leadEqCI q t := by
  induction q with
  | nil =>
    intro t
    simpa [leadEqCI] using likeMatch_pct t
  | cons a q ih =>
    have ha : (!(a == '%') && !(a == '_')) = true :=
      List.all_eq_true.mp hw a (List.mem_cons_self a q)
    have ha1 : ¬a = '%' := by
      intro h
      rw [h] at ha
      simp at ha
    have ha2 : ¬a = '_' := by
      intro h
      rw [h] at ha
      simp at ha
    have hq : noWild q = true := by
      refine List.all_eq_true.mpr ?_
      intro x hx
      exact List.all_eq_true.mp hw x (List.mem_cons_of_mem a hx)
    intro t
    cases t with
    | nil => simp [likeMatch, leadEqCI, ha1]
    | cons c ts => simp [likeMatch, leadEqCI, ha1, ha2, ih hq]

/-- Scanning all tails for a case-insensitive leading match is substring
containment. -/
theorem tails_any_lead (q : List Char) : ∀ t, t.tails.any (fun t2 => leadEqCI q t2) = subCI q t := by
  intro t
  induction t with
  | nil => simp [subCI]
  | cons c ts ih => rw [List.tails_cons, List.any_cons, ih, subCI]

/-- With a wildcard-free query, the pattern percent-query-percent matches a
name exactly when the query is a case-insensitive substring of it. -/
theorem likeMatch_sub (q : List Char) (hw : noWild q = true) (t : List Char) :
    likeMatch ('%' :: (q ++ ['%'])) t = subCI q t := by
  have e : likeMatch ('%' :: (q ++ ['%'])) t
      = t.tails.any (fun t2 => likeMatch (q ++ ['%']) t2) := by
    rw [likeMatch]
  rw [e, show (fun t2 => likeMatch (q ++ ['%']) t2) = (fun t2 => leadEqCI q t2)
    from funext (fun t2 => likeMatch_lit_pct q hw t2)]
  exact tails_any_lead q t

/-- The incrementally built WHERE clause equals one conjunctive filter. -/
theorem product_page_filter (products : List ProductRow) (qRaw cRaw : String) :
    product_page products qRaw cRaw = products.filter (fun p =>
      (pyStrip qRaw == "" || likeMatch ('%' :: ((pyStrip qRaw).data ++ ['%'])) p.name.data)
        && (pyStrip cRaw == "" || p.category == pyStrip cRaw)) := by
  by_cases hq : pyStrip qRaw = "" <;> by_cases hc : pyStrip cRaw = ""
  · simp [product_page, hq, hc]
  · have hc2 : (pyStrip cRaw == "") = false := by simp [hc]
    simp [product_page, hq, hc, hc2]
  · have hq2 : (pyStrip qRaw == "") = false := by simp [hq]
    simp [product_page, hq, hc, hq2]
  · have hc2 : (pyStrip cRaw == "") = false := by simp [hc]
    have hq2 : (pyStrip qRaw == "") = false := by simp [hq]
    simp [product_page, hq, hc, hq2, hc2, List.filter_filter, Bool.and_comm]

/-! ## Concrete inputs used by the claim theorems -/

/-- The seeded Football product. -/
def footballRow : ProductRow :=
  { id := 1, name := "Football", price := .real 499, category := "Outdoor",
    image := "football.jpeg" }

/-- A session carrying the admin flag and a CSRF token. -/
def adminSession : Session :=
  { adminLoggedIn := true, csrfToken := some "t", cart := .absent }

/-- A session WITHOUT the admin flag but with a CSRF token (any visitor who
rendered a form has one). -/
def anonSession : Session :=
  { adminLoggedIn := false, csrfToken := some "t", cart := .absent }

/-- An update form rewriting every product field. -/
def hackForm : Form :=
  [("csrf_token", "t"), ("name", "Hacked"), ("price", "10"),
   ("category", "X"), ("image", "h.png")]

/-! ## Claim theorems -/

/-- C1 counterexample: a POST to updateProduct from a session without the
authenticated-admin flag (but with a matching CSRF token) rewrites the
products table and redirects to the admin listing, not to the login page —
refuting the claim that every state-changing admin product operation
requires an authenticated admin session. -/
theorem c1_counterexample :
    anonSession.adminLoggedIn = false ∧
    admin_update 1 anonSession hackForm { products := [footballRow], nextId := 2 }
      = .ok { db := { products := [{ id := 1, name := "Hacked", price := .real 10,
                                     category := "X", image := "h.png" }], nextId := 2 },
              flashes := [("Product updated successfully!", "info")],
              response := .redirect "admin" } ∧
    ¬([({ id := 1, name := "Hacked", price := SqlVal.real 10, category := "X",
          image := "h.png" } : ProductRow)] = [footballRow]) ∧
    ¬((Response.redirect "admin") = .redirect "admin_login") := by
  exact ⟨rfl, by decide, by decide, by decide⟩

/-- C1 (amended): addProduct and deleteProduct require an authenticated admin
session — without the flag they change nothing and redirect to the login
page; updateProduct carries no admin check at all: its outcome is identical
whatever the admin flag (and cart) of the session. -/
theorem c1_admin_gating :
    ∀ (sess : Session) (form : Form) (db : DB) (pid : Nat),
      sess.adminLoggedIn = false →
      admin_add sess form db = authRedirect db ∧
      admin_delete pid sess db = authRedirect db ∧
      (∀ (b1 b2 : Bool) (d1 d2 : CartState) (tok : Option String),
        admin_update pid { adminLoggedIn := b1, csrfToken := tok, cart := d1 } form db
          = admin_update pid { adminLoggedIn := b2, csrfToken := tok, cart := d2 } form db) := by
  intro sess form db pid h
  refine ⟨by simp [admin_add, h], by simp [admin_delete, h], ?_⟩
  intro b1 b2 d1 d2 tok
  rfl

/-- C1 witness: the amended theorem applied to a concrete non-admin session. -/
theorem c1_witness :
    anonSession.adminLoggedIn = false ∧
    admin_add anonSession hackForm { products := [footballRow], nextId := 2 }
      = authRedirect { products := [footballRow], nextId := 2 } :=
  ⟨rfl, (c1_admin_gating anonSession hackForm { products := [footballRow], nextId := 2 } 1
    rfl).1⟩

/-- A missing or mismatched form token fails the verify_csrf check. -/
theorem verify_csrf_eq_false (sess : Session) (form : Form)
    (h : formGet form ("csrf_token") = none ∨ ¬formGet form ("csrf_token") = sess.csrfToken) :
    verify_csrf sess form = false := by
  rw [verify_csrf]
  cases h1 : sess.csrfToken with
  | none => cases h2 : formGet form ("csrf_token") <;> rfl
  | some st =>
    cases h2 : formGet form ("csrf_token") with
    | none => rfl
    | some ft =>
      rcases h with h | h
      · rw [h2] at h
        cases h
      · rw [h1, h2] at h
        have hne : st ≠ ft := fun e => h (congrArg some e.symm)
        simp [hne]

/-- C2: a POST to addProduct or updateProduct whose CSRF token is missing or
differs from the session's token is rejected with the table untouched, no
validation performed, and a redirect to the admin listing flashing the
invalid-CSRF message (for addProduct the request must first pass the admin
gate, which updateProduct does not have). -/
theorem c2_csrf_rejection :
    ∀ (sess : Session) (form : Form) (db : DB) (pid : Nat),
      (formGet form ("csrf_token") = none ∨ ¬formGet form ("csrf_token") = sess.csrfToken) →
      admin_update pid sess form db = .ok (csrfReject db) ∧
      (sess.adminLoggedIn = true → admin_add sess form db = csrfReject db) := by
  intro sess form db pid h
  have hv := verify_csrf_eq_false sess form h
  exact ⟨by simp [admin_update, hv], fun ha => by simp [admin_add, ha, hv]⟩

/-- C2 witness: a form with no CSRF token is rejected on both endpoints. -/
theorem c2_witness :
    (formGet ([("name", "Ball")] : Form) ("csrf_token") = none) ∧
    admin_update 1 adminSession [("name", "Ball")] { products := [footballRow], nextId := 2 }
      = .ok (csrfReject { products := [footballRow], nextId := 2 }) ∧
    admin_add adminSession [("name", "Ball")] { products := [footballRow], nextId := 2 }
      = csrfReject { products := [footballRow], nextId := 2 } := by
  refine ⟨rfl, ?_, ?_⟩
  · exact (c2_csrf_rejection adminSession [("name", "Ball")] _ 1 (Or.inl rfl)).1
  · exact (c2_csrf_rejection adminSession [("name", "Ball")] _ 1 (Or.inl rfl)).2 rfl

/-- C5: migrating a legacy list cart yields, for every name, exactly its
number of occurrences in the list; the documented example migrates to the
expected dict; and the cart page's first read of a legacy cart stores the
migrated dict back into the session. -/
theorem c5_legacy_migration :
    (∀ (l : List String) (name : String),
      dictGet (migrateCartList l) name 0 = l.count name) ∧
    migrateCartList ["Football", "Football", "Yoga Mat"]
      = [("Football", 2), ("Yoga Mat", 1)] ∧
    (∀ (l : List String) (b : Bool) (tok : Option String),
      cart_page [] { adminLoggedIn := b, csrfToken := tok, cart := .legacy l }
        = .ok ({ adminLoggedIn := b, csrfToken := tok, cart := .map (migrateCartList l) },
               [], 0)) := by
  refine ⟨?_, by decide, ?_⟩
  · intro l name
    have h := dictGet_migrate_fold l [] name
    simpa [migrateCartList, dictGet] using h
  · intro l b tok
    simp [cart_page, cartView_nil]

/-- C6: the claim that cart operations never fail is violated by the code:
removing a name from a cart still stored in the legacy list representation
executes `del cart[name]` on a list with a string index and raises
TypeError instead of completing. -/
theorem c6_remove_legacy_raises :
    remove_from_cart "Football"
        { adminLoggedIn := false, csrfToken := none, cart := .legacy ["Football"] }
      = .error "TypeError: list indices must be integers or slices, not str" := by
  decide

/-- C3: addProduct validates in order — any missing field fails with the
all-fields message, a price that does not parse fails with the
must-be-a-number message, a parsed price at most zero fails with the
greater-than-zero message, an unaccepted image extension fails with the
invalid-image message; every failure leaves the table unchanged and only
when all checks pass is the new row inserted. -/
theorem c3_add_validation :
    ∀ (sess : Session) (form : Form) (db : DB),
      sess.adminLoggedIn = true →
      verify_csrf sess form = true →
      ((pyStrip (formGetD form "name") = "" ∨ pyStrip (formGetD form "price") = ""
          ∨ pyStrip (formGetD form "category") = "" ∨ pyStrip (formGetD form "image") = "") →
        admin_add sess form db
          = { db := db, flashes := [("All fields are required.", "error")],
              response := .redirect "admin" }) ∧
      (¬pyStrip (formGetD form "name") = "" → ¬pyStrip (formGetD form "price") = "" →
        ¬pyStrip (formGetD form "category") = "" → ¬pyStrip (formGetD form "image") = "" →
        (pyFloat (pyStrip (formGetD form "price")) = none →
          admin_add sess form db
            = { db := db, flashes := [("Price must be a number.", "error")],
                response := .redirect "admin" }) ∧
        (∀ v, pyFloat (pyStrip (formGetD form "price")) = some v →
          (v.le0 = true →
            admin_add sess form db
              = { db := db, flashes := [("Price must be greater than zero.", "error")],
                  response := .redirect "admin" }) ∧
          (v.le0 = false → imageExtOk (pyStrip (formGetD form "image")) = false →
            admin_add sess form db
              = { db := db, flashes := [("Invalid image format.", "error")],
                  response := .redirect "admin" }) ∧
          (v.le0 = false → imageExtOk (pyStrip (formGetD form "image")) = true →
            admin_add sess form db
              = { db :=
                    { products := db.products ++
                        [{ id := db.nextId, name := pyStrip (formGetD form "name"),
                           price := realAffinity (pyStrip (formGetD form "price")),
                           category := pyStrip (formGetD form "category"),
                           image := pyStrip (formGetD form "image") }],
                      nextId := db.nextId + 1 },
                  flashes := [("Product added successfully!", "success")],
                  response := .redirect "admin" }))) := by
  intro sess form db ha hv
  refine ⟨?_, ?_⟩
  · intro h
    have hb : ((pyStrip (formGetD form "name") == "") || (pyStrip (formGetD form "price") == "")
        || (pyStrip (formGetD form "category") == "")
        || (pyStrip (formGetD form "image") == "")) = true := by
      rcases h with h | h | h | h <;> simp [h]
    simp [admin_add, ha, hv, validate_product_form, hb]
  · intro hn hp hc hi
    have hb : ((pyStrip (formGetD form "name") == "") || (pyStrip (formGetD form "price") == "")
        || (pyStrip (formGetD form "category") == "")
        || (pyStrip (formGetD form "image") == "")) = false := by
      simp [hn, hp, hc, hi]
    refine ⟨?_, ?_⟩
    · intro hpf
      simp [admin_add, ha, hv, validate_product_form, hb, hpf]
    · intro v hpf
      refine ⟨?_, ?_, ?_⟩
      · intro hle
        simp [admin_add, ha, hv, validate_product_form, hb, hpf, hle]
      · intro hle himg
        simp [admin_add, ha, hv, validate_product_form, hb, hpf, hle, himg]
      · intro hle himg
        simp [admin_add, ha, hv, validate_product_form, hb, hpf, hle, himg]

/-- A form adding a zero-priced product. -/
def addZeroForm : Form :=
  [("csrf_token", "t"), ("name", "Ball"), ("price", "0"),
   ("category", "Outdoor"), ("image", "b.png")]

/-- C3 witness: adding with price 0 flashes the greater-than-zero message and
inserts nothing. -/
theorem c3_witness :
    adminSession.adminLoggedIn = true ∧
    verify_csrf adminSession addZeroForm = true ∧
    pyFloat (pyStrip (formGetD addZeroForm "price")) = some (.finite 0) ∧
    admin_add adminSession addZeroForm { products := [], nextId := 1 }
      = { db := { products := [], nextId := 1 },
          flashes := [("Price must be greater than zero.", "error")],
          response := .redirect "admin" } := by
  refine ⟨rfl, by decide, by decide, ?_⟩
  exact (((c3_add_validation adminSession addZeroForm { products := [], nextId := 1 }
    rfl (by decide)).2 (by decide) (by decide) (by decide) (by decide)).2
    (.finite 0) (by decide)).1 (by decide)

/-- C4: updateProduct with an empty image skips validation entirely, looks up
the stored image of the addressed row and reuses it: the row keeps its
image while name, price and category take the supplied values; all other
rows are untouched. -/
theorem c4_update_empty_image :
    ∀ (sess : Session) (form : Form) (db : DB) (pid : Nat) (row : ProductRow),
      verify_csrf sess form = true →
      pyStrip (formGetD form "image") = "" →
      db.products.filter (fun r => r.id == pid) = [row] →
      admin_update pid sess form db
        = .ok { db := { products := db.products.map (fun r =>
                  if r.id == pid then
                    { id := r.id, name := pyStrip (formGetD form "name"),
                      price := realAffinity (pyStrip (formGetD form "price")),
                      category := pyStrip (formGetD form "category"),
                      image := row.image }
                  else r), nextId := db.nextId },
                flashes := [("Product updated successfully!", "info")],
                response := .redirect "admin" } := by
  intro sess form db pid row hv himg hrow
  have hfind : db.products.find? (fun r => r.id == pid) = some row :=
    find?_of_filter_singleton _ _ _ hrow
  simp [admin_update, hv, himg, hfind]

/-- The documented update form: new name, price and category, empty image. -/
def updateForm : Form :=
  [("csrf_token", "t"), ("name", "Ball"), ("price", "10"),
   ("category", "Outdoor"), ("image", "")]

/-- C4 witness: updating Football with an empty image keeps football.jpeg
while the other fields change. -/
theorem c4_witness :
    verify_csrf adminSession updateForm = true ∧
    pyStrip (formGetD updateForm "image") = "" ∧
    (DB.mk [footballRow] 2).products.filter (fun r => r.id == 1) = [footballRow] ∧
    admin_update 1 adminSession updateForm (DB.mk [footballRow] 2)
      = .ok { db := { products := [{ id := 1, name := "Ball", price := .real 10,
                                     category := "Outdoor", image := "football.jpeg" }],
                      nextId := 2 },
              flashes := [("Product updated successfully!", "info")],
              response := .redirect "admin" } := by
  refine ⟨rfl, rfl, by decide, ?_⟩
  exact c4_update_empty_image adminSession updateForm (DB.mk [footballRow] 2) 1 footballRow
    rfl rfl (by decide)

/-- C7: on a catalog whose prices are all real numbers the cart view renders,
per entry, one line item for each product row with the entry's name, with
subtotal the quantity times that row's current price; entries matching no
row contribute nothing; the total is the sum of the rendered subtotals.
Concretely Football priced 499 with quantity 2 totals 998, and 0 once
Football is deleted from the catalog. -/
theorem c7_cart_view_total :
    ∀ (products : List ProductRow) (entries : List (String × Nat)),
      pricesReal products = true →
      cartView products entries
        = .ok (viewLines products entries, subSum (viewLines products entries)) ∧
      cartView [footballRow] [("Football", 2)]
        = .ok ([{ row := footballRow, qty := 2, subtotal := 998 }], 998) ∧
      cartView ((admin_delete 1 adminSession { products := [footballRow], nextId := 2 }).db.products)
          [("Football", 2)]
        = .ok ([], 0) := by
  intro products entries h
  exact ⟨cartView_eq products entries h, by decide, by decide⟩

/-- C7 witness: the view equation applied to the Football catalog. -/
theorem c7_witness :
    pricesReal [footballRow] = true ∧
    cartView [footballRow] [("Football", 2)]
      = .ok (viewLines [footballRow] [("Football", 2)],
             subSum (viewLines [footballRow] [("Football", 2)])) :=
  ⟨rfl, (c7_cart_view_total [footballRow] [("Football", 2)] rfl).1⟩

/-- A catalog carrying two distinct rows that share the name Football, as the
products table permits (no UNIQUE constraint on name). -/
def dupCatalog : List ProductRow :=
  [{ id := 1, name := "Football", price := .real 499, category := "Outdoor", image := "a.png" },
   { id := 2, name := "Football", price := .real 100, category := "Indoor", image := "b.png" }]

/-- C10: when two or more rows share a cart entry's name, the view emits one
line item per matching row — as many line items as matching rows — and the
total charges quantity times price for every matching row. -/
theorem c10_duplicate_names :
    ∀ (products : List ProductRow) (name : String) (qty : Nat),
      pricesReal products = true →
      2 ≤ (matchingRows products name).length →
      cartView products [(name, qty)]
        = .ok (linesFor products name qty, subSum (linesFor products name qty)) ∧
      (linesFor products name qty).length = (matchingRows products name).length ∧
      subSum (linesFor products name qty)
        = ((matchingRows products name).map (fun p => (qty : Rat) * ratOf p.price)).sum := by
  intro products name qty h hdup
  refine ⟨?_, ?_, ?_⟩
  · have hc := cartView_eq products [(name, qty)] h
    simpa [viewLines, subSum_append] using hc
  · simp [linesFor]
  · simp only [subSum, linesFor, List.map_map]
    rfl

/-- C10 witness: a duplicate-name catalog yields both line items and the
combined total. -/
theorem c10_witness :
    pricesReal dupCatalog = true ∧
    2 ≤ (matchingRows dupCatalog "Football").length ∧
    cartView dupCatalog [("Football", 2)]
      = .ok (linesFor dupCatalog "Football" 2, subSum (linesFor dupCatalog "Football" 2)) ∧
    subSum (linesFor dupCatalog "Football" 2) = 1198 := by
  refine ⟨rfl, by decide, ?_, ?_⟩
  · exact (c10_duplicate_names dupCatalog "Football" 2 rfl (by decide)).1
  · simp [subSum, linesFor, matchingRows, lineOf, dupCatalog, ratOf]
    norm_num

/-- Form posted to the login handler from raw credential strings. -/
theorem c9_login_indistinguishable :
    ∀ (verify : String → String → Bool) (users : List UserRow) (sess : Session)
      (u1 p1 u2 p2 : String),
      ¬pyStrip u1 = "" → ¬pyStrip p1 = "" → ¬pyStrip u2 = "" → ¬pyStrip p2 = "" →
      users.find? (fun u => u.username == pyStrip u1) = none →
      (∃ row, users.find? (fun u => u.username == pyStrip u2) = some row ∧
        verify (pyStrip p2) row.passwordHash = false) →
      admin_login_post verify users sess (mkLoginForm u1 p1)
        = admin_login_post verify users sess (mkLoginForm u2 p2) ∧
      admin_login_post verify users sess (mkLoginForm u1 p1)
        = { session := sess, flashes := [("Invalid username or password", "danger")],
            response := .redirect "admin_login" } := by
  intro verify users sess u1 p1 u2 p2 hu1 hp1 hu2 hp2 hfind1 hex
  obtain ⟨row, hfind2, hver⟩ := hex
  have k1 : formGetD (mkLoginForm u1 p1) ("username") = u1 := rfl
  have k2 : formGetD (mkLoginForm u1 p1) ("password") = p1 := rfl
  have k3 : formGetD (mkLoginForm u2 p2) ("username") = u2 := rfl
  have k4 : formGetD (mkLoginForm u2 p2) ("password") = p2 := rfl
  have e1 : admin_login_post verify users sess (mkLoginForm u1 p1)
      = { session := sess, flashes := [("Invalid username or password", "danger")],
          response := .redirect "admin_login" } := by
    simp [admin_login_post, k1, k2, hu1, hp1, hfind1]
  have e2 : admin_login_post verify users sess (mkLoginForm u2 p2)
      = { session := sess, flashes := [("Invalid username or password", "danger")],
          response := .redirect "admin_login" } := by
    simp [admin_login_post, k3, k4, hu2, hp2, hfind2, hver]
  exact ⟨e1.trans e2.symm, e1⟩

/-- C9 witness: an unknown user and a known user with a failing password
check produce literally the same outcome. -/
theorem c9_witness :
    ([⟨1, "realuser", "h"⟩] : List UserRow).find?
        (fun u => u.username == pyStrip "nouser") = none ∧
    admin_login_post (fun _ _ => false) [⟨1, "realuser", "h"⟩] anonSession
        (mkLoginForm "nouser" "x")
      = admin_login_post (fun _ _ => false) [⟨1, "realuser", "h"⟩] anonSession
        (mkLoginForm "realuser" "wrongpass") := by
  refine ⟨rfl, ?_⟩
  exact (c9_login_indistinguishable (fun _ _ => false) [⟨1, "realuser", "h"⟩] anonSession
    "nouser" "x" "realuser" "wrongpass" (by decide) (by decide) (by decide) (by decide)
    rfl ⟨⟨1, "realuser", "h"⟩, rfl, rfl⟩).1

/-- The catalog row whose name the wildcard query matches spuriously. -/
def abcRow : ProductRow :=
  { id := 1, name := "abc", price := .real 1, category := "X", image := "a.png" }

/-- C8 counterexample: the query a_c is returned against the product abc —
the underscore acts as a LIKE wildcard — although a_c is not a
case-insensitive substring of abc, so the handler's result differs from the
claimed substring filter. -/
theorem c8_counterexample :
    product_page [abcRow] "a_c" "" = [abcRow] ∧
    specFilter [abcRow] "a_c" "" = [] ∧
    ¬product_page [abcRow] "a_c" "" = specFilter [abcRow] "a_c" "" := by
  exact ⟨by decide, by decide, by decide⟩

/-- C8 (amended): the catalog query returns exactly the products satisfying
(query empty OR name matches the SQL LIKE pattern percent-query-percent,
ASCII-case-insensitively, with percent and underscore in the query acting
as wildcards) AND (category empty OR exact equality); whenever the trimmed
query contains neither wildcard the name condition is exactly
case-insensitive substring containment, i.e. the result is the filter the
spec describes. -/
theorem c8_catalog_filter :
    ∀ (products : List ProductRow) (qRaw cRaw : String),
      product_page products qRaw cRaw = products.filter (fun p =>
        ((pyStrip qRaw) == "" || likeMatch ('%' :: ((pyStrip qRaw).data ++ ['%'])) p.name.data)
          && ((pyStrip cRaw) == "" || p.category == (pyStrip cRaw))) ∧
      (noWild ((pyStrip qRaw).data) = true →
        product_page products qRaw cRaw = specFilter products qRaw cRaw) := by
  intro products qRaw cRaw
  refine ⟨product_page_filter products qRaw cRaw, ?_⟩
  intro hw
  rw [product_page_filter]
  simp only [specFilter]
  refine List.filter_congr ?_
  intro p _
  rw [likeMatch_sub ((pyStrip qRaw).data) hw (p.name.data)]

/-- C8 witness: the wildcard-free query ball filters exactly as the spec's
substring containment. -/
theorem c8_witness :
    noWild ((pyStrip "ball").data) = true ∧
    product_page [footballRow] "ball" "" = specFilter [footballRow] "ball" "" :=
  ⟨rfl, (c8_catalog_filter [footballRow] "ball" "").2 rfl⟩

end SportsStore
